import Mathlib

/-!
# Verification of the d8analysis statistical-test layer

Shallow embedding of the profile registry, the statistical test runners
(chi-square goodness of fit, Kolmogorov-Smirnov, independent-samples t-test),
the result records, and the reject-region plotting step of the KS result,
from `d8analysis/quantitative/...`.  External library calls (scipy) are taken
as parameters of the model; Python floats are modelled as rationals.
-/

namespace D8

/-- Association-list lookup, modelling Python `dict[key]` access
(`profiles[id]`, `profile.items()` filtering).  A parsed YAML mapping has
unique keys, so first-match lookup coincides with dict lookup. -/
def dictLookup {α : Type} : List (String × α) → String → Option α
  | [], _ => none
  | kv :: rest, k => if kv.1 = k then some kv.2 else dictLookup rest k

/-- The declared dataclass fields of `StatTestProfile`
(`base.py` lines 49-59): `id` plus ten metadata fields. -/
def profileFieldNames : List String :=
  ["id", "name", "description", "statistic", "analysis", "hypothesis",
   "H0", "parametric", "min_sample_size", "assumptions", "use_when"]

/-- `StatTestProfile` (`base.py` lines 42-59): a dataclass whose `id` is a
string and whose remaining fields default to `None`.  Config-row values are
heterogeneous in Python; the value type is a parameter `α` since `create`
never inspects them. -/
structure StatTestProfile (α : Type) where
  id : String
  name : Option α := none
  description : Option α := none
  statistic : Option α := none
  analysis : Option α := none
  hypothesis : Option α := none
  H0 : Option α := none
  parametric : Option α := none
  min_sample_size : Option α := none
  assumptions : Option α := none
  use_when : Option α := none
  deriving Repr, DecidableEq

/-- `StatTestProfile.create(id)` (`base.py` lines 109-117).
Modelled from the spec: `IOService.read(STAT_CONFIG)` (the module
`d8analysis/service/io.py` is not in the source tree) parses the YAML
test-metadata file into a mapping from test id to a record of fields; the
parsed mapping is the explicit argument `profiles`.  The body then follows
the source: look the id up (`KeyError` -> `none`), keep only the keys that
are declared dataclass fields, overwrite `id` with the requested id, and
build the dataclass (missing keys keep their `None` defaults). -/
def StatTestProfile.create {α : Type} (profiles : List (String × List (String × α)))
    (i : String) : Option (StatTestProfile α) :=
  match dictLookup profiles i with
  | none => none
  | some profile =>
      let fieldlist := profileFieldNames
      let filtered_dict := profile.filter (fun kv => fieldlist.contains kv.1)
      some
        { id := i
          name := dictLookup filtered_dict "name"
          description := dictLookup filtered_dict "description"
          statistic := dictLookup filtered_dict "statistic"
          analysis := dictLookup filtered_dict "analysis"
          hypothesis := dictLookup filtered_dict "hypothesis"
          H0 := dictLookup filtered_dict "H0"
          parametric := dictLookup filtered_dict "parametric"
          min_sample_size := dictLookup filtered_dict "min_sample_size"
          assumptions := dictLookup filtered_dict "assumptions"
          use_when := dictLookup filtered_dict "use_when" }

/-! ## Rendering of numbers inside f-strings

The runners interpolate `round(pvalue, 2)` and `int(alpha * 100)` into fixed
sentence templates.  Python floats are modelled as rationals; their decimal
rendering is abstracted by an exact rational rendering whose output consists
only of digits, `-` and `/` — the claims about the templates depend only on
the fixed sentence text, never on the rendered digits. -/

/-- The ten decimal digit characters. -/
def digitChars : List Char := ['0', '1', '2', '3', '4', '5', '6', '7', '8', '9']

/-- The character for the decimal digit `n % 10`. -/
def digitChar (n : ℕ) : Char := digitChars.getD (n % 10) '0'

/-- Decimal rendering of a natural number, most significant digit first. -/
def natChars (n : ℕ) : List Char :=
  if n < 10 then [digitChar n]
  else natChars (n / 10) ++ [digitChar (n % 10)]
decreasing_by exact Nat.div_lt_self (by omega) (by omega)

/-- Rendering of an integer: optional minus sign, then digits. -/
def intChars (z : ℤ) : List Char :=
  (if z < 0 then ['-'] else []) ++ natChars z.natAbs

/-- Rendering of a rational: integer numerator, and `/denominator` when the
denominator is not 1. -/
def ratChars (q : ℚ) : List Char :=
  intChars q.num ++ (if q.den = 1 then [] else '/' :: natChars q.den)

/-- The characters that can occur in a rendered number. -/
def numericChars : List Char := '-' :: '/' :: digitChars

/-- The character list of a string literal. -/
def str (s : String) : List Char := s.data

/-- Python `round(x, 2)`: round to two decimal places, ties to even
(banker's rounding, as Python's `round` does). -/
def pyround2 (q : ℚ) : ℚ :=
  (if Int.fract (q * 100) = 1 / 2 then
    (if 2 ∣ ⌊q * 100⌋ then ⌊q * 100⌋ else ⌊q * 100⌋ + 1)
  else round (q * 100) : ℤ) / 100

/-- Python `int(x)`: truncation toward zero. -/
def pyint (q : ℚ) : ℤ := if 0 ≤ q then ⌊q⌋ else ⌈q⌉

/-! ## Inference sentence templates

`ChiSquareTest.run` (`chisquare.py` lines 89-92) and `KSTest._infer`
(`kstest.py` lines 334-346) each select one of two fixed sentence templates
by comparing `pvalue > alpha`; `_infer` further branches on whether `b` is a
reference-distribution name (one-sample) or a second sample (two-sample). -/

/-- The `pvalue > alpha` template of `ChiSquareTest.run`. -/
def chiInferFail (p a : ℚ) : List Char :=
  str "The pvalue " ++ ratChars (pyround2 p) ++
  str " is greater than level of significance " ++ intChars (pyint (a * 100)) ++
  str "%; therefore, the null hypothesis is not rejected. The evidence against a common distribution was not significant."

/-- The `pvalue <= alpha` template of `ChiSquareTest.run`. -/
def chiInferReject (p a : ℚ) : List Char :=
  str "The pvalue " ++ ratChars (pyround2 p) ++
  str " is less than level of significance " ++ intChars (pyint (a * 100)) ++
  str "%; therefore, the null hypothesis is rejected. The evidence against a common distribution is significant."

/-- The inference built by `ChiSquareTest.run`: template selected by
`pvalue > alpha`. -/
def chiInference (p a : ℚ) : List Char :=
  if p > a then chiInferFail p a else chiInferReject p a

/-- One-sample `pvalue > alpha` template of `KSTest._infer` (`b` is the
reference-distribution name, interpolated into the sentence). -/
def ksInferOneFail (name : String) (p a : ℚ) : List Char :=
  str "The pvalue " ++ ratChars (pyround2 p) ++
  str " is greater than level of significance " ++ intChars (pyint (a * 100)) ++
  str "%; therefore, the null hypothesis is not rejected. The evidence against the data being drawn from the " ++
  str name ++ str " is not significant."

/-- One-sample `pvalue <= alpha` template of `KSTest._infer`. -/
def ksInferOneReject (name : String) (p a : ℚ) : List Char :=
  str "The pvalue " ++ ratChars (pyround2 p) ++
  str " is less than level of significance " ++ intChars (pyint (a * 100)) ++
  str "%; therefore, the null hypothesis is rejected. The evidence against the data being drawn from the " ++
  str name ++ str " is significant."

/-- Two-sample `pvalue > alpha` template of `KSTest._infer`. -/
def ksInferTwoFail (p a : ℚ) : List Char :=
  str "The pvalue " ++ ratChars (pyround2 p) ++
  str " is greater than level of significance " ++ intChars (pyint (a * 100)) ++
  str "%; therefore, the null hypothesis is not rejected. The evidence against the data being drawn from the same distribution is not significant."

/-- Two-sample `pvalue <= alpha` template of `KSTest._infer`. -/
def ksInferTwoReject (p a : ℚ) : List Char :=
  str "The pvalue " ++ ratChars (pyround2 p) ++
  str " is less than level of significance " ++ intChars (pyint (a * 100)) ++
  str "%; therefore, the null hypothesis is rejected. The evidence against the data being drawn from the same distribution is significant."

/-- `KSTest._infer` (`kstest.py` lines 334-346): branch on
`isinstance(self._b, str)`, then select the template by `pvalue > alpha`. -/
def ksInfer (b : Sum String (List ℚ)) (p a : ℚ) : List Char :=
  match b with
  | Sum.inl name => if p > a then ksInferOneFail name p a else ksInferOneReject name p a
  | Sum.inr _ => if p > a then ksInferTwoFail p a else ksInferTwoReject p a

/-- The `pvalue > alpha` branch of `ksInfer`, per shape of `b`. -/
def ksFailTemplate (b : Sum String (List ℚ)) (p a : ℚ) : List Char :=
  match b with
  | Sum.inl name => ksInferOneFail name p a
  | Sum.inr _ => ksInferTwoFail p a

/-- The `pvalue <= alpha` branch of `ksInfer`, per shape of `b`. -/
def ksRejectTemplate (b : Sum String (List ℚ)) (p a : ℚ) : List Char :=
  match b with
  | Sum.inl name => ksInferOneReject name p a
  | Sum.inr _ => ksInferTwoReject p a

/-! ## Result records and the chi-square runner -/

/-- Python `round(x, 3)`: round to three decimal places, ties to even. -/
def pyround3 (q : ℚ) : ℚ :=
  (if Int.fract (q * 1000) = 1 / 2 then
    (if 2 ∣ ⌊q * 1000⌋ then ⌊q * 1000⌋ else ⌊q * 1000⌋ + 1)
  else round (q * 1000) : ℤ) / 1000

/-- APA-style p-value report, `StatisticalTest._report_pvalue`
(`base.py` lines 175-180). -/
def report_pvalue (pvalue : ℚ) : List Char :=
  if pvalue < 1 / 1000 then str "p<.001"
  else str "P=" ++ ratChars (pyround3 pvalue)

/-- `StatisticalTest._report_alpha` (`base.py` lines 182-184). -/
def report_alpha (alpha : ℚ) : List Char :=
  str "significant at " ++ intChars (pyint (alpha * 100)) ++ str "%."

/-- `StatTestResult` (`base.py` lines 134-151): the common result dataclass.
Every field has a dataclass default (`alpha` defaults to 0.05); no field is
validated at construction. -/
structure StatTestResult where
  test : Option String := Option.none
  hypothesis : Option String := Option.none
  H0 : Option String := Option.none
  statistic : Option String := Option.none
  value : ℚ := 0
  pvalue : ℚ := 0
  inference : Option (List Char) := Option.none
  alpha : ℚ := 1 / 20
  result : Option (List Char) := Option.none
  interpretation : Option (List Char) := Option.none
  deriving Repr, DecidableEq

/-- The `expected` slot of `ChiSquareTest`: `None`, a numeric frequency
table, or the explanatory tuple of strings that `run` assigns in place of
`None` (`chisquare.py` lines 94-97). -/
inductive Expected
  | none
  | freqs (f : List ℚ)
  | label (s : List String)
  deriving Repr, DecidableEq

/-- `ChiSquareResult` (`chisquare.py` lines 36-40): adds `dof`, `observed`
and `expected` to the base record, each defaulting to `None`. -/
structure ChiSquareResult extends StatTestResult where
  dof : Option ℤ := Option.none
  observed : Option (List ℚ) := Option.none
  expected : Option Expected := Option.none
  deriving Repr, DecidableEq

/-- The numeric behaviour of `scipy.stats.chisquare` is external to this
repository and is a parameter of the model: given observed frequencies and
optional expected frequencies it returns (statistic, pvalue). -/
structure ChisquareLib where
  chisquare : List ℚ → Option (List ℚ) → ℚ × ℚ

/-- `scipy.stats.chisquare(f_obs=..., f_exp=..., axis=None)` as invoked by
the runner.  With `f_exp=None` or a numeric table the library computes
(statistic, pvalue); passing the tuple-of-strings value raises a type error
inside the library (numpy cannot do arithmetic between strings and
numbers), modelled as `Except.error`. -/
def scipyChisquare (lib : ChisquareLib) (f_obs : List ℚ) (f_exp : Expected) :
    Except String (ℚ × ℚ) :=
  match f_exp with
  | .none => .ok (lib.chisquare f_obs Option.none)
  | .freqs f => .ok (lib.chisquare f_obs (some f))
  | .label _ => .error "TypeError: unsupported operand type(s)"

/-- The APA result line of `ChiSquareTest.run` (`chisquare.py` line 108). -/
def chiReportResult (dof : ℤ) (observed : List ℚ) (statistic pvalue alpha : ℚ) :
    List Char :=
  str "X²(" ++ intChars dof ++ str ", N=" ++ ratChars observed.sum ++ str ")=" ++
  ratChars (pyround2 statistic) ++ str ", " ++ report_pvalue pvalue ++ str " " ++
  report_alpha alpha

/-- `ChiSquareTest` instance state: the fields assigned by `__init__`
(`chisquare.py` lines 60-71).  The profile row loaded from the
configuration is carried as a value. -/
structure ChiSquareTest where
  profile : StatTestProfile String
  observed : List ℚ
  expected : Expected
  alpha : ℚ
  result : Option ChiSquareResult

/-- `ChiSquareTest(observed, expected=None, alpha=0.05)`. -/
def ChiSquareTest.mkTest (profile : StatTestProfile String) (observed : List ℚ)
    (expected : Expected := .none) (alpha : ℚ := 1 / 20) : ChiSquareTest :=
  ⟨profile, observed, expected, alpha, Option.none⟩

/-- `ChiSquareTest.run` (`chisquare.py` lines 83-113): compute
`dof = len(observed) - 1`, delegate to `scipy.stats.chisquare`, build the
inference from `pvalue > alpha`, replace `self._expected` by the
explanatory tuple when it is `None`, and store a fresh `ChiSquareResult`.
The updated runner state is returned; a library exception propagates as
`Except.error`. -/
def ChiSquareTest.run (lib : ChisquareLib) (t : ChiSquareTest) :
    Except String ChiSquareTest :=
  let dof : ℤ := (t.observed.length : ℤ) - 1
  match scipyChisquare lib t.observed t.expected with
  | .error e => .error e
  | .ok sp =>
      let statistic := sp.1
      let pvalue := sp.2
      let inference := chiInference pvalue t.alpha
      let expected :=
        match t.expected with
        | .none => Expected.label ["Equal Frequencies among Groups"]
        | e => e
      .ok { t with
            expected := expected
            result := some
              { test := t.profile.name
                H0 := t.profile.H0
                statistic := some "X²"
                hypothesis := t.profile.hypothesis
                dof := some dof
                value := statistic
                pvalue := pvalue
                result := some (chiReportResult dof t.observed statistic pvalue t.alpha)
                observed := some t.observed
                expected := some expected
                inference := some inference
                alpha := t.alpha } }

/-- A minimal profile value standing for the loaded "x2gof" row. -/
def x2gofProfile : StatTestProfile String := { id := "x2gof" }

/-! ## The Kolmogorov-Smirnov runner and its reject-region plot -/

/-- Python `round(x, 4)`: round to four decimal places, ties to even. -/
def pyround4 (q : ℚ) : ℚ :=
  (if Int.fract (q * 10000) = 1 / 2 then
    (if 2 ∣ ⌊q * 10000⌋ then ⌊q * 10000⌋ else ⌊q * 10000⌋ + 1)
  else round (q * 10000) : ℤ) / 10000

/-- The Python exceptions visible in the KS runner. -/
inductive PyExc
  | keyError (msg : String)
  | attributeError (msg : String)
  deriving Repr, DecidableEq

/-- The numeric behaviour of `scipy.stats.kstest` is external to this
repository and is a parameter of the model; it may raise (for example a
lookup failure on the reference-distribution name). -/
structure KstestLib where
  kstest : List ℚ → Sum String (List ℚ) → Except PyExc (ℚ × ℚ)

/-- `KSTestResult` (`kstest.py` lines 42-54): adds the sample `a` and the
reference `b` (a distribution name or a second sample) to the base
record. -/
structure KSTestResult extends StatTestResult where
  a : Option (List ℚ) := Option.none
  b : Option (Sum String (List ℚ)) := Option.none
  deriving DecidableEq

/-- `KSTest` instance state: the attributes assigned by `__init__`
(`kstest.py` lines 279-285), with the loaded profile carried as a value. -/
structure KSTest where
  profile : StatTestProfile String
  a : List ℚ
  b : Sum String (List ℚ)
  alpha : ℚ
  result : Option KSTestResult

/-- `KSTest(a, b, alpha=0.05)`. -/
def KSTest.mkTest (profile : StatTestProfile String) (a : List ℚ)
    (b : Sum String (List ℚ)) (alpha : ℚ := 1 / 20) : KSTest :=
  ⟨profile, a, b, alpha, Option.none⟩

/-- The instance attribute names a `KSTest` object owns: `_io` from
`StatisticalTest.__init__` (`base.py` line 159), `_logger` from the
`Analysis` base, and the five attributes of `KSTest.__init__`.  No
`_reference_distribution` attribute is ever assigned (it belongs to an
older revision of the class). -/
def KSTest.instanceAttrs : List String :=
  ["_io", "_logger", "_a", "_b", "_alpha", "_profile", "_result"]

/-- Python attribute lookup on a `KSTest` instance: a name outside the
assigned attributes raises `AttributeError`.  The string value returned for
an assigned name is irrelevant to every claim (only `_reference_distribution`
is ever looked up through this function, and it is always absent). -/
def KSTest.getattrStr (name : String) : Except PyExc String :=
  if KSTest.instanceAttrs.contains name then Except.ok ""
  else Except.error (PyExc.attributeError name)

/-- The small-sample note of `KSTest.run` (`kstest.py` line 314). -/
def ksSmallSampleNote : List Char :=
  str "Note: The Kolmogorov-Smirnov Test requires a sample size N > 50. For smaller sample sizes, the Shapiro-Wilk test should be considered."

/-- The large-sample note of `KSTest.run` (`kstest.py` line 316). -/
def ksLargeSampleNote : List Char :=
  str "Note: The Kolmogorov-Smirnov Test on large sample sizes may lead to rejections of the null hypothesis that are statistically significant, yet practically insignificant."

/-- The interpretation selected by `KSTest.run` (`kstest.py` lines
312-316): start from `None`, overwrite with the small-sample note when
`len(a) < 50`, then with the large-sample note when `len(a) > 1000`. -/
def ksInterpretation (n : ℕ) : Option (List Char) :=
  let i0 : Option (List Char) := Option.none
  let i1 := if n < 50 then some ksSmallSampleNote else i0
  if n > 1000 then some ksLargeSampleNote else i1

/-- `KSTest._report_results` (`kstest.py` lines 348-351). -/
def ksReport (n : ℕ) (statistic pvalue : ℚ) : List Char :=
  str "D(" ++ natChars n ++ str ")=" ++ ratChars (pyround4 statistic) ++
  str ", p=" ++ ratChars (pyround3 pvalue)

/-- `KSTest.run` (`kstest.py` lines 297-332).  The call into
`scipy.stats.kstest` is wrapped in `try/except KeyError`; the handler first
evaluates the f-string `f"Distribution {self._reference_distribution} is
not supported.\n{e}"`, whose attribute lookup itself raises (the attribute
does not exist), so the logging statement is never reached.  The second
component collects the messages passed to `self._logger.error`. -/
def KSTest.run (lib : KstestLib) (t : KSTest) :
    Except PyExc KSTest × List (List Char) :=
  let n := t.a.length
  match lib.kstest t.a t.b with
  | .error e =>
      match e with
      | .keyError k =>
          match KSTest.getattrStr "_reference_distribution" with
          | .error exc => (.error exc, [])
          | .ok v =>
              (.error (.keyError k),
                [str "Distribution " ++ str v ++ str " is not supported.\n" ++ str k])
      | e => (.error e, [])
  | .ok sp =>
      let statistic := sp.1
      let pvalue := sp.2
      let inference := ksInfer t.b pvalue t.alpha
      let interpretation := ksInterpretation n
      (.ok { t with
              result := some
                { test := t.profile.name
                  H0 := t.profile.H0
                  statistic := t.profile.statistic
                  hypothesis := t.profile.hypothesis
                  value := statistic
                  pvalue := pvalue
                  result := some (ksReport n statistic pvalue)
                  a := some t.a
                  b := some t.b
                  inference := some inference
                  interpretation := interpretation
                  alpha := t.alpha } }, [])

/-- The drawing operations issued by `KSTestResult._fill_reject_region`. -/
inductive PlotOp
  | fillLowerTail
  | fillUpperTail
  | statMarker (x y : ℚ)
  | statAnnotation (v : ℚ)
  | criticalValueAnnotation (x : ℚ)
  deriving Repr, DecidableEq

/-- `KSTestResult._fill_reject_region` (`kstest.py` lines 96-170): fill the
two tails, then inside a single `try` block locate the first curve point
with `x > value` (`np.where(xdata > self.value)[0][0]`), draw the statistic
marker, its annotation, and the two critical-value annotations.  When the
statistic exceeds every rendered x, the indexing raises `IndexError`, the
`except IndexError: pass` swallows it, and the whole annotation block —
marker and both critical-value annotations — is skipped. -/
def fillRejectRegion (xdata ydata : List ℚ) (value lowerCritical upperCritical : ℚ) :
    List PlotOp :=
  let fills := [PlotOp.fillLowerTail, PlotOp.fillUpperTail]
  match xdata.findIdx? (fun x => value < x) with
  | Option.none => fills
  | some idx =>
      let x := xdata.getD idx 0
      let y := ydata.getD idx 0
      fills ++ [PlotOp.statMarker x y, PlotOp.statAnnotation (pyround4 value),
        PlotOp.criticalValueAnnotation lowerCritical,
        PlotOp.criticalValueAnnotation upperCritical]

/-- A library behaviour whose `kstest` raises the lookup failure for an
unsupported reference-distribution name. -/
def ksKeyErrorLib : KstestLib :=
  ⟨fun _ _ => Except.error (PyExc.keyError "'norm2'")⟩

/-- A library behaviour whose `kstest` returns a fixed numeric pair. -/
def ksOkLib : KstestLib := ⟨fun _ _ => Except.ok (1 / 4, 1 / 10)⟩

/-- A concrete KS test on a three-point sample against the (unsupported)
reference distribution name "norm2". -/
def ksExampleTest : KSTest :=
  KSTest.mkTest { id := "kstest" } [1, 2, 3] (Sum.inl "norm2")

/-! ## The independent-samples t-test runner -/

/-- Modelled from the spec: `QuantStats.compute` (the descriptive-statistics
module of the repository is not in the source tree) summarises one sample;
the spec fixes only that the `length` fields drive `dof = n1 + n2 - 2`.
Only the summary values themselves are carried; how they are computed is a
parameter of the model (`computeStats` below). -/
structure QuantStats where
  length : ℕ
  count : ℕ
  mean : ℚ
  std : ℚ

/-- The numeric behaviour of `scipy.stats.ttest_ind` is external to this
repository; together with the descriptive-statistics computation it is a
parameter of the model. -/
structure TtestLib where
  ttest_ind : List ℚ → List ℚ → Bool → ℚ × ℚ
  computeStats : List ℚ → QuantStats

/-- The `pvalue > alpha` template of `TTest.run` (`ttest.py` line 100). -/
def ttestInferFail (p a : ℚ) : List Char :=
  str "The pvalue " ++ ratChars (pyround2 p) ++
  str " is greater than level of significance " ++ intChars (pyint (a * 100)) ++
  str "%; therefore, the null hypothesis is not rejected. The evidence against identical centers for x and y is not significant."

/-- The `pvalue <= alpha` template of `TTest.run` (`ttest.py` line 102). -/
def ttestInferReject (p a : ℚ) : List Char :=
  str "The pvalue " ++ ratChars (pyround2 p) ++
  str " is less than level of significance " ++ intChars (pyint (a * 100)) ++
  str "%; therefore, the null hypothesis is rejected. The evidence against identical centers for x and y is significant."

/-- The inference built by `TTest.run`. -/
def ttestInference (p a : ℚ) : List Char :=
  if p > a then ttestInferFail p a else ttestInferReject p a

/-- `TTest._report_results` (`ttest.py` lines 123-124). -/
def ttestReport (x_stats y_stats : QuantStats) (dof : ℤ) (statistic pvalue alpha : ℚ) :
    List Char :=
  str "Independent Samples t Test\nX: (N = " ++ natChars x_stats.count ++
  str ", M = " ++ ratChars (pyround2 x_stats.mean) ++
  str ", SD = " ++ ratChars (pyround2 x_stats.std) ++
  str ")\nY: (N = " ++ natChars y_stats.count ++
  str ", M = " ++ ratChars (pyround2 y_stats.mean) ++
  str ", SD = " ++ ratChars (pyround2 y_stats.std) ++
  str ")\nt(" ++ intChars dof ++ str ") = " ++ ratChars (pyround2 statistic) ++
  str ", " ++ report_pvalue pvalue ++ str " " ++ report_alpha alpha

/-- `TTestResult` (`ttest.py`): adds the t-test specific fields to the base
record. -/
structure TTestResult extends StatTestResult where
  dof : Option ℤ := Option.none
  homoscedastic : Option Bool := Option.none
  x : Option (List ℚ) := Option.none
  y : Option (List ℚ) := Option.none
  x_stats : Option QuantStats := Option.none
  y_stats : Option QuantStats := Option.none

/-- `TTest` instance state (`ttest.py` lines 67-76). -/
structure TTest where
  profile : StatTestProfile String
  x : List ℚ
  y : List ℚ
  alpha : ℚ
  homoscedastic : Bool
  result : Option TTestResult

/-- `TTest(x, y, alpha=0.05, homoscedastic=False)`. -/
def TTest.mkTest (profile : StatTestProfile String) (x y : List ℚ)
    (alpha : ℚ := 1 / 20) (homoscedastic : Bool := false) : TTest :=
  ⟨profile, x, y, alpha, homoscedastic, Option.none⟩

/-- `TTest.run` (`ttest.py` lines 88-121): delegate to
`scipy.stats.ttest_ind`, compute `dof = len(x) + len(y) - 2` from the
descriptive statistics, build the report and the inference, and store a
result whose `value` is `np.abs(statistic)` — the absolute value of the
returned t statistic. -/
def TTest.run (lib : TtestLib) (t : TTest) : TTest :=
  let sp := lib.ttest_ind t.x t.y t.homoscedastic
  let statistic := sp.1
  let pvalue := sp.2
  let x_stats := lib.computeStats t.x
  let y_stats := lib.computeStats t.y
  let dof : ℤ := (x_stats.length : ℤ) + (y_stats.length : ℤ) - 2
  let resultLine := ttestReport x_stats y_stats dof statistic pvalue t.alpha
  let inference := ttestInference pvalue t.alpha
  { t with
      result := some
        { test := t.profile.name
          H0 := t.profile.H0
          statistic := t.profile.statistic
          hypothesis := t.profile.hypothesis
          homoscedastic := some t.homoscedastic
          dof := some dof
          value := |statistic|
          pvalue := pvalue
          result := some resultLine
          x := some t.x
          y := some t.y
          x_stats := some x_stats
          y_stats := some y_stats
          inference := some inference
          alpha := t.alpha } }

/-- A concrete configuration row used to exercise `StatTestProfile.create`:
one declared key, one undeclared key, one more declared key. -/
def exampleRow : List (String × String) :=
  [("name", "Chi-Square Goodness of Fit"), ("undeclared_key", "ignored"),
   ("H0", "equal frequencies")]

/-- A concrete one-row configuration mapping for the id "x2gof". -/
def exampleProfiles : List (String × List (String × String)) :=
  [("x2gof", exampleRow)]

/-- Filtering an association list by a key predicate does not change lookups
of keys satisfying the predicate. -/
theorem dictLookup_filter {α : Type} (row : List (String × α)) (p : String → Bool)
    (k : String) (hk : p k = true) :
    dictLookup (row.filter (fun kv => p kv.1)) k = dictLookup row k := by
  induction row with
  | nil => rfl
  | cons hd tl ih =>
      rw [List.filter_cons]
      by_cases hhd : hd.1 = k
      · have hq : p hd.1 = true := by rw [hhd]; exact hk
        simp [dictLookup, hq, hhd, hk]
      · cases hp : p hd.1 with
        | true => simp [dictLookup, hp, hhd, ih]
        | false => simp [dictLookup, hp, hhd, ih]

/-- Every digit character is one of the ten digits. -/
theorem digitChar_mem (n : ℕ) : digitChar n ∈ digitChars := by
  have h10 : n % 10 = 0 ∨ n % 10 = 1 ∨ n % 10 = 2 ∨ n % 10 = 3 ∨ n % 10 = 4 ∨
      n % 10 = 5 ∨ n % 10 = 6 ∨ n % 10 = 7 ∨ n % 10 = 8 ∨ n % 10 = 9 := by omega
  unfold digitChar
  rcases h10 with h | h | h | h | h | h | h | h | h | h <;> rw [h] <;> decide

/-- The rendering of a natural number consists of digit characters only. -/
theorem mem_natChars (n : ℕ) : ∀ c ∈ natChars n, c ∈ digitChars := by
  induction n using Nat.strong_induction_on with
  | _ n ih =>
      intro c hc
      rw [natChars] at hc
      by_cases h : n < 10
      · rw [if_pos h] at hc
        simp only [List.mem_singleton] at hc
        subst hc
        exact digitChar_mem n
      · rw [if_neg h] at hc
        rcases List.mem_append.mp hc with h1 | h2
        · exact ih (n / 10) (Nat.div_lt_self (by omega) (by omega)) c h1
        · simp only [List.mem_singleton] at h2
          subst h2
          exact digitChar_mem (n % 10)

/-- A character that is not a digit never occurs in a rendered natural. -/
theorem count_natChars {c : Char} (hc : c ∉ digitChars) (n : ℕ) :
    (natChars n).count c = 0 :=
  List.count_eq_zero.mpr (fun h => hc (mem_natChars n c h))

/-- A character outside the numeric alphabet never occurs in a rendered
integer. -/
theorem count_intChars {c : Char} (hc : c ∉ numericChars) (z : ℤ) :
    (intChars z).count c = 0 := by
  have hdash : c ≠ '-' := by intro h; exact hc (by rw [h]; decide)
  have hdig : c ∉ digitChars := by
    intro h
    exact hc (by simp [numericChars, h])
  unfold intChars
  rw [List.count_append, count_natChars hdig]
  split <;> simp [List.count_cons, hdash]

/-- A character outside the numeric alphabet never occurs in a rendered
rational. -/
theorem count_ratChars {c : Char} (hc : c ∉ numericChars) (q : ℚ) :
    (ratChars q).count c = 0 := by
  have hslash : c ≠ '/' := by intro h; exact hc (by rw [h]; decide)
  have hdig : c ∉ digitChars := by
    intro h
    exact hc (by simp [numericChars, h])
  unfold ratChars
  rw [List.count_append, count_intChars hc]
  split <;> simp [List.count_cons, hslash, count_natChars hdig]

/-- The fail-to-reject chi-square template holds four letters g. -/
theorem count_g_chiInferFail (p a : ℚ) : (chiInferFail p a).count 'g' = 4 := by
  have hg : ('g' : Char) ∉ numericChars := by decide
  unfold chiInferFail
  simp only [List.count_append, count_ratChars hg, count_intChars hg]
  decide

/-- The reject chi-square template holds three letters g. -/
theorem count_g_chiInferReject (p a : ℚ) : (chiInferReject p a).count 'g' = 3 := by
  have hg : ('g' : Char) ∉ numericChars := by decide
  unfold chiInferReject
  simp only [List.count_append, count_ratChars hg, count_intChars hg]
  decide

/-- The one-sample fail-to-reject KS template holds five letters g besides
those of the interpolated distribution name. -/
theorem count_g_ksInferOneFail (name : String) (p a : ℚ) :
    (ksInferOneFail name p a).count 'g' = (str name).count 'g' + 5 := by
  have hg : ('g' : Char) ∉ numericChars := by decide
  unfold ksInferOneFail
  simp only [List.count_append, count_ratChars hg, count_intChars hg]
  have hA : (str "The pvalue ").count 'g' = 0 := by decide
  have hB : (str " is greater than level of significance ").count 'g' = 2 := by decide
  have hC : (str "%; therefore, the null hypothesis is not rejected. The evidence against the data being drawn from the ").count 'g' = 2 := by decide
  have hD : (str " is not significant.").count 'g' = 1 := by decide
  rw [hA, hB, hC, hD]
  omega

/-- The one-sample reject KS template holds four letters g besides those of
the interpolated distribution name. -/
theorem count_g_ksInferOneReject (name : String) (p a : ℚ) :
    (ksInferOneReject name p a).count 'g' = (str name).count 'g' + 4 := by
  have hg : ('g' : Char) ∉ numericChars := by decide
  unfold ksInferOneReject
  simp only [List.count_append, count_ratChars hg, count_intChars hg]
  have hA : (str "The pvalue ").count 'g' = 0 := by decide
  have hB : (str " is less than level of significance ").count 'g' = 1 := by decide
  have hC : (str "%; therefore, the null hypothesis is rejected. The evidence against the data being drawn from the ").count 'g' = 2 := by decide
  have hD : (str " is significant.").count 'g' = 1 := by decide
  rw [hA, hB, hC, hD]
  omega

/-- The two-sample fail-to-reject KS template holds five letters g. -/
theorem count_g_ksInferTwoFail (p a : ℚ) : (ksInferTwoFail p a).count 'g' = 5 := by
  have hg : ('g' : Char) ∉ numericChars := by decide
  unfold ksInferTwoFail
  simp only [List.count_append, count_ratChars hg, count_intChars hg]
  decide

/-- The two-sample reject KS template holds four letters g. -/
theorem count_g_ksInferTwoReject (p a : ℚ) : (ksInferTwoReject p a).count 'g' = 4 := by
  have hg : ('g' : Char) ∉ numericChars := by decide
  unfold ksInferTwoReject
  simp only [List.count_append, count_ratChars hg, count_intChars hg]
  decide

/-- C1: for every test id present in the loaded configuration mapping,
`StatTestProfile.create(id)` returns a profile whose `id` field is the
requested id and whose remaining declared fields hold the values of the
matching keys of that id's configuration row; keys of the row that are not
declared fields are dropped (no field of the returned record depends on
them). -/
theorem create_matches_config_row {α : Type}
    (profiles : List (String × List (String × α))) (i : String)
    (row : List (String × α)) (h : dictLookup profiles i = some row) :
    StatTestProfile.create profiles i =
      some
        { id := i
          name := dictLookup row "name"
          description := dictLookup row "description"
          statistic := dictLookup row "statistic"
          analysis := dictLookup row "analysis"
          hypothesis := dictLookup row "hypothesis"
          H0 := dictLookup row "H0"
          parametric := dictLookup row "parametric"
          min_sample_size := dictLookup row "min_sample_size"
          assumptions := dictLookup row "assumptions"
          use_when := dictLookup row "use_when" } := by
  simp only [StatTestProfile.create, h, Option.some.injEq, StatTestProfile.mk.injEq]
  have hf : ∀ k, profileFieldNames.contains k = true →
      dictLookup (row.filter (fun kv => profileFieldNames.contains kv.1)) k =
        dictLookup row k :=
    fun k hk => dictLookup_filter row (fun s => profileFieldNames.contains s) k hk
  exact ⟨trivial, hf "name" (by decide), hf "description" (by decide),
    hf "statistic" (by decide), hf "analysis" (by decide), hf "hypothesis" (by decide),
    hf "H0" (by decide), hf "parametric" (by decide), hf "min_sample_size" (by decide),
    hf "assumptions" (by decide), hf "use_when" (by decide)⟩

/-- Witness for C1: a concrete configuration mapping with one row for
"x2gof", holding a declared key, an undeclared key (dropped) and leaving
the other declared fields absent (defaulted to `none`). -/
theorem create_matches_config_row_witness :
    dictLookup exampleProfiles "x2gof" = some exampleRow ∧
    StatTestProfile.create exampleProfiles "x2gof" =
      some
        { id := "x2gof"
          name := some "Chi-Square Goodness of Fit"
          H0 := some "equal frequencies" } :=
  ⟨by decide, by
    rw [create_matches_config_row exampleProfiles "x2gof" exampleRow (by decide)]
    decide⟩

/-- C2: in every test runner, which of the two inference sentence templates
(reject / fail to reject) is stored is governed solely by `pvalue > alpha`:
for runs with `p1 > alpha` and `p2 <= alpha`, the chi-square runner and the
KS runner (one-sample or two-sample alike) store the fail-to-reject and the
reject template respectively, and the two stored strings are never equal. -/
theorem inference_template_selection (p1 p2 a : ℚ) (h1 : p1 > a) (h2 : p2 ≤ a) :
    (chiInference p1 a = chiInferFail p1 a ∧ chiInference p2 a = chiInferReject p2 a ∧
      chiInference p1 a ≠ chiInference p2 a) ∧
    ∀ b : Sum String (List ℚ),
      ksInfer b p1 a = ksFailTemplate b p1 a ∧
      ksInfer b p2 a = ksRejectTemplate b p2 a ∧
      ksInfer b p1 a ≠ ksInfer b p2 a := by
  have hn2 : ¬(p2 > a) := not_lt.mpr h2
  constructor
  · refine ⟨?_, ?_, ?_⟩
    · simp [chiInference, h1]
    · simp [chiInference, hn2]
    · simp only [chiInference, if_pos h1, if_neg hn2]
      intro heq
      have hcount := congrArg (List.count 'g') heq
      rw [count_g_chiInferFail, count_g_chiInferReject] at hcount
      omega
  · intro b
    rcases b with name | arr
    · refine ⟨?_, ?_, ?_⟩
      · simp [ksInfer, ksFailTemplate, h1]
      · simp [ksInfer, ksRejectTemplate, hn2]
      · simp only [ksInfer, if_pos h1, if_neg hn2]
        intro heq
        have hcount := congrArg (List.count 'g') heq
        rw [count_g_ksInferOneFail, count_g_ksInferOneReject] at hcount
        omega
    · refine ⟨?_, ?_, ?_⟩
      · simp [ksInfer, ksFailTemplate, h1]
      · simp [ksInfer, ksRejectTemplate, hn2]
      · simp only [ksInfer, if_pos h1, if_neg hn2]
        intro heq
        have hcount := congrArg (List.count 'g') heq
        rw [count_g_ksInferTwoFail, count_g_ksInferTwoReject] at hcount
        omega

/-- Witness for C2: the spec's concrete pair `pvalue=0.5` versus
`pvalue=0.01` at `alpha=0.05` yields two distinct inference sentences. -/
theorem inference_template_selection_witness :
    ((1 : ℚ) / 2 > 1 / 20 ∧ (1 : ℚ) / 100 ≤ 1 / 20) ∧
    chiInference (1 / 2) (1 / 20) ≠ chiInference (1 / 100) (1 / 20) :=
  ⟨⟨by norm_num, by norm_num⟩,
    (inference_template_selection (1 / 2) (1 / 100) (1 / 20)
      (by norm_num) (by norm_num)).1.2.2⟩

/-- C3: the claimed idempotence of `ChiSquareTest.run` fails.  With
observed frequencies `[10,20,30,40]` and no expected frequencies, the first
`run` succeeds but mutates the runner's `expected` slot into the
tuple-of-strings explanation, so the second `run` passes that tuple to
`scipy.stats.chisquare` and raises a type error instead of reproducing the
numeric fields — whatever the library's numeric behaviour. -/
theorem chisquare_second_run_raises (lib : ChisquareLib) :
    ∃ t1, ChiSquareTest.run lib (ChiSquareTest.mkTest x2gofProfile [10, 20, 30, 40]) =
        Except.ok t1 ∧
      ChiSquareTest.run lib t1 = Except.error "TypeError: unsupported operand type(s)" :=
  ⟨_, rfl, rfl⟩

/-- C6 counterexample: `StatTestResult` performs no validation, so a record
constructed with `alpha = 2` stores `2`, which does not lie in (0,1). -/
theorem alpha_invariant_counterexample :
    ({ alpha := 2 } : StatTestResult).alpha = 2 ∧
      ¬(0 < ({ alpha := 2 } : StatTestResult).alpha ∧
        ({ alpha := 2 } : StatTestResult).alpha < 1) :=
  ⟨rfl, by decide⟩

/-- C6 (amended): a `StatTestResult` constructed without an alpha has
`alpha = 0.05`; a supplied alpha is stored unchanged — no validation
constrains it to (0,1). -/
theorem alpha_default_and_passthrough :
    ({} : StatTestResult).alpha = 1 / 20 ∧
      ∀ a : ℚ, ({ alpha := a } : StatTestResult).alpha = a :=
  ⟨rfl, fun _ => rfl⟩

/-- C7: running the chi-square goodness-of-fit test on observed frequencies
`[10,20,30,40]` with no expected frequencies stores `dof = 3`
(`len(observed) - 1`) and stores exactly the statistic and p-value returned
by the library's `chisquare` on those inputs, whatever they are. -/
theorem chisquare_dof_and_library_values (lib : ChisquareLib) :
    ∃ t1 r, ChiSquareTest.run lib (ChiSquareTest.mkTest x2gofProfile [10, 20, 30, 40]) =
        Except.ok t1 ∧
      t1.result = some r ∧ r.dof = some 3 ∧
      r.value = (lib.chisquare [10, 20, 30, 40] Option.none).1 ∧
      r.pvalue = (lib.chisquare [10, 20, 30, 40] Option.none).2 := by
  refine ⟨_, _, rfl, rfl, ?_, rfl, rfl⟩
  show some ((([10, 20, 30, 40] : List ℚ).length : ℤ) - 1) = some 3
  decide

/-- C9: after `ChiSquareTest.run` on a test constructed with expected
frequencies omitted, the stored result's `expected` field is the
one-element tuple ("Equal Frequencies among Groups",), never `None` and
never a numeric table. -/
theorem chisquare_expected_label (lib : ChisquareLib) (profile : StatTestProfile String)
    (observed : List ℚ) (alpha : ℚ) :
    ∃ t1 r, ChiSquareTest.run lib (ChiSquareTest.mkTest profile observed .none alpha) =
        Except.ok t1 ∧
      t1.result = some r ∧
      r.expected = some (Expected.label ["Equal Frequencies among Groups"]) :=
  ⟨_, _, rfl, rfl, rfl⟩

/-- Characterisation of the sample-size note: small-sample exactly below
50, large-sample exactly above 1000, `None` exactly in between (the two
overwrites of `interpretation` cannot both fire). -/
theorem ksInterpretation_spec (n : ℕ) :
    (ksInterpretation n = some ksSmallSampleNote ↔ n < 50) ∧
    (ksInterpretation n = some ksLargeSampleNote ↔ 1000 < n) ∧
    (ksInterpretation n = Option.none ↔ 50 ≤ n ∧ n ≤ 1000) := by
  have hne : ksSmallSampleNote ≠ ksLargeSampleNote := by decide
  have hexpr : ksInterpretation n =
      if n > 1000 then some ksLargeSampleNote
      else if n < 50 then some ksSmallSampleNote else Option.none := rfl
  rw [hexpr]
  by_cases h1 : n < 50
  · have h2 : ¬(n > 1000) := by omega
    rw [if_neg h2, if_pos h1]
    exact ⟨iff_of_true rfl h1,
      iff_of_false (fun hEq => hne (Option.some.inj hEq)) h2,
      iff_of_false (by simp) (by omega)⟩
  · by_cases h2 : n > 1000
    · rw [if_pos h2]
      exact ⟨iff_of_false (fun hEq => hne (Option.some.inj hEq).symm) h1,
        iff_of_true rfl h2,
        iff_of_false (by simp) (by omega)⟩
    · rw [if_neg h2, if_neg h1]
      exact ⟨iff_of_false (by simp) h1,
        iff_of_false (by simp) h2,
        iff_of_true rfl (by omega)⟩

/-- C10: after a successful `KSTest.run` on sample `a`, the result's
`interpretation` is the small-sample note exactly when `len(a) < 50`, the
large-sample note exactly when `len(a) > 1000`, and `None` exactly when
`50 <= len(a) <= 1000`. -/
theorem kstest_interpretation_thresholds (lib : KstestLib) (t : KSTest) (sp : ℚ × ℚ)
    (h : lib.kstest t.a t.b = Except.ok sp) :
    ∃ t1 r, KSTest.run lib t = (Except.ok t1, []) ∧ t1.result = some r ∧
      (r.interpretation = some ksSmallSampleNote ↔ t.a.length < 50) ∧
      (r.interpretation = some ksLargeSampleNote ↔ 1000 < t.a.length) ∧
      (r.interpretation = Option.none ↔ 50 ≤ t.a.length ∧ t.a.length ≤ 1000) := by
  unfold KSTest.run
  rw [h]
  exact ⟨_, _, rfl, rfl, (ksInterpretation_spec t.a.length).1,
    (ksInterpretation_spec t.a.length).2.1, (ksInterpretation_spec t.a.length).2.2⟩

/-- Witness for C10: a successful run on a three-point sample stores the
small-sample note. -/
theorem kstest_interpretation_thresholds_witness :
    ksOkLib.kstest ksExampleTest.a ksExampleTest.b = Except.ok (1 / 4, 1 / 10) ∧
    ∃ t1 r, KSTest.run ksOkLib ksExampleTest = (Except.ok t1, []) ∧
      t1.result = some r ∧
      (r.interpretation = some ksSmallSampleNote ↔ ksExampleTest.a.length < 50) ∧
      (r.interpretation = some ksLargeSampleNote ↔ 1000 < ksExampleTest.a.length) ∧
      (r.interpretation = Option.none ↔
        50 ≤ ksExampleTest.a.length ∧ ksExampleTest.a.length ≤ 1000) :=
  ⟨rfl, kstest_interpretation_thresholds ksOkLib ksExampleTest (1 / 4, 1 / 10) rfl⟩

/-- C5: the claim fails on the code.  When the library call raises a
KeyError for an unsupported reference-distribution name, the handler's
f-string reads `self._reference_distribution` — an attribute the class
never assigns — so an AttributeError is raised while building the log
message: nothing is logged and the AttributeError, not the original
KeyError, propagates to the caller. -/
theorem kstest_keyerror_replaced_by_attribute_error :
    KSTest.run ksKeyErrorLib ksExampleTest =
      (Except.error (PyExc.attributeError "_reference_distribution"), []) := rfl

/-- C8: after `TTest.run`, the stored `value` is the absolute value of the
t statistic returned by the library — hence non-negative — for every pair
of samples, every alpha and every library behaviour. -/
theorem ttest_value_is_abs_statistic (lib : TtestLib) (t : TTest) :
    ∃ r, (TTest.run lib t).result = some r ∧
      r.value = |(lib.ttest_ind t.x t.y t.homoscedastic).1| ∧ 0 ≤ r.value := by
  refine ⟨_, rfl, rfl, ?_⟩
  exact abs_nonneg _

/-- C4 counterexample: with the observed statistic (5) above the rendered
curve's x-range ([0.1, 0.2]), the plot completes but draws only the two
tail fills — contrary to the claim, the two critical-value annotations are
not drawn either. -/
theorem fill_reject_region_counterexample :
    (∀ x ∈ [(1 : ℚ), 2], x ≤ 5) ∧
    fillRejectRegion [(1 : ℚ), 2] [1, 1] 5 3 4 =
      [PlotOp.fillLowerTail, PlotOp.fillUpperTail] ∧
    PlotOp.criticalValueAnnotation 3 ∉
      fillRejectRegion [(1 : ℚ), 2] [1, 1] 5 3 4 := by
  refine ⟨by decide, rfl, by decide⟩

/-- C4 (amended): when the observed statistic lies above the x-range of the
rendered curve, the reject-region step completes without raising but skips
the whole annotation block: no observed-statistic marker and no
critical-value annotations — only the two tail fills are drawn. -/
theorem fill_reject_region_skips_annotations (xdata ydata : List ℚ)
    (v lc uc : ℚ) (h : ∀ x ∈ xdata, x ≤ v) :
    fillRejectRegion xdata ydata v lc uc =
      [PlotOp.fillLowerTail, PlotOp.fillUpperTail] := by
  unfold fillRejectRegion
  have hnone : xdata.findIdx? (fun x => decide (v < x)) = Option.none := by
    rw [List.findIdx?_eq_none_iff]
    intro x hx
    simpa using not_lt.mpr (h x hx)
  rw [hnone]

/-- Witness for C4 (amended): the counterexample input again. -/
theorem fill_reject_region_skips_annotations_witness :
    (∀ x ∈ [(1 : ℚ), 2], x ≤ 5) ∧
    fillRejectRegion [(1 : ℚ), 2] [1, 1] 5 3 4 =
      [PlotOp.fillLowerTail, PlotOp.fillUpperTail] :=
  ⟨by decide,
    fill_reject_region_skips_annotations [(1 : ℚ), 2] [1, 1] 5 3 4 (by decide)⟩

end D8
